import Mathlib

/-!
Verification of the notification dispatcher in `src/satellite/src/lib.rs`.

The hook `on_set_doc` decodes a document-write event into an `EmailRequest`,
builds an `EmailPayload` with a templated `text`, serializes it to JSON,
issues one HTTP POST with auth/idempotency headers, and classifies the
response.  The embedding below translates that pipeline; the single
suspension point (the HTTP outcall) is passed in as an oracle function and
every issued call is recorded in the returned trace.  Byte bodies of the
outbound request are modelled as the string whose UTF-8 encoding they are
(`json_body.into_bytes()` is injective on strings); the response body is
kept as raw bytes because the source decodes it lossily.
-/

/-- `struct EmailRequest` (lib.rs lines 18-26): six required string fields. -/
structure EmailRequest where
  «from» : String
  «to» : String
  subject : String
  text : String
  user_name : String
  recipient_name : String
deriving DecidableEq

/-- `struct EmailPayload` (lib.rs lines 28-34): the wire shape. -/
structure EmailPayload where
  «from» : String
  «to» : String
  subject : String
  text : String
deriving DecidableEq

/-- The `format!` call of lib.rs lines 44-48: literal segments of the
template interleaved with `recipient_name` and `user_name`. -/
def emailText (recipient user : String) : String :=
  "Hello " ++ recipient ++ ",\n\n" ++ user ++
    " has shared some files with you through Futura.\n\nYou can access your shared files at: https://futura.app\n\nBest regards,\nThe Futura Team"

/-- The `EmailPayload` construction of lib.rs lines 40-49: `from`, `to`,
`subject` copied, `text` synthesized from the template. -/
def buildEmailPayload (e : EmailRequest) : EmailPayload :=
  { «from» := e.«from», «to» := e.«to», subject := e.subject,
    text := emailText e.recipient_name e.user_name }

/-- Lowercase hex digit, as used by serde_json for `\u00XX` escapes. -/
def hexDigit (n : Nat) : Char :=
  (("0123456789abcdef").data).getD n '0'

/-- serde_json's escaping of one character inside a JSON string: `"` and
`\` get a backslash, the control characters 0x08, 0x09, 0x0A, 0x0C, 0x0D
get their short escapes, the remaining control characters below 0x20 get
`\u00XX`, and everything else is emitted verbatim. -/
def escapeJsonChar (c : Char) : List Char :=
  if c = '"' then ['\\', '"']
  else if c = '\\' then ['\\', '\\']
  else if c.toNat = 8 then ['\\', 'b']
  else if c.toNat = 9 then ['\\', 't']
  else if c.toNat = 10 then ['\\', 'n']
  else if c.toNat = 12 then ['\\', 'f']
  else if c.toNat = 13 then ['\\', 'r']
  else if c.toNat < 32 then
    ['\\', 'u', '0', '0', hexDigit (c.toNat / 16), hexDigit (c.toNat % 16)]
  else [c]

/-- A JSON string literal: quoted, characters escaped. -/
def jsonStringLit (s : String) : String :=
  "\"" ++ String.mk ((s.data.map escapeJsonChar).flatten) ++ "\""

/-- `serde_json::to_string(&email_payload)` output for the derived
`Serialize` of `EmailPayload`: a JSON object with the four fields in
declaration order. -/
def serializeEmailPayload (p : EmailPayload) : String :=
  "\x7b\"from\":" ++ jsonStringLit p.«from» ++
    ",\"to\":" ++ jsonStringLit p.«to» ++
    ",\"subject\":" ++ jsonStringLit p.subject ++
    ",\"text\":" ++ jsonStringLit p.text ++ "\x7d"

/-- Model of `serde_json::to_string(&email_payload)` (lib.rs line 52) as a
`Result`.  For a struct of four `String` fields the derived serializer only
writes strings into an in-memory buffer, which cannot fail, so the result
is always `ok`; the error branch of the `Result` is kept so that the
caller's `map_err`/`?` (line 53) is represented faithfully. -/
def serde_json_to_string (p : EmailPayload) : Except String String :=
  Except.ok (serializeEmailPayload p)

/-- `HttpHeader` of the IC management-canister interface. -/
structure HttpHeader where
  name : String
  value : String
deriving DecidableEq

/-- `HttpMethod` of the IC management-canister interface. -/
inductive HttpMethod where
  | GET
  | POST
  | HEAD
deriving DecidableEq

/-- `CanisterHttpRequestArgument` (lib.rs lines 70-77).  The body bytes are
modelled as the string they encode; `transform` is only ever `None` in the
source so it is modelled as `Option Unit`. -/
structure CanisterHttpRequestArgument where
  url : String
  method : HttpMethod
  body : Option String
  max_response_bytes : Option Nat
  transform : Option Unit
  headers : List HttpHeader
deriving DecidableEq

/-- `HttpResponse`: `status` is a candid `Nat` (arbitrary precision), the
body is raw bytes (possibly invalid UTF-8). -/
structure HttpResponse where
  status : Nat
  headers : List HttpHeader
  body : List UInt8
deriving DecidableEq

/-- `ic_cdk::api::call::RejectionCode`. -/
inductive RejectionCode where
  | NoError
  | SysFatal
  | SysTransient
  | DestinationInvalid
  | CanisterReject
  | CanisterError
  | Unknown
deriving DecidableEq

/-- The derived `Debug` formatting of `RejectionCode`, as printed by the
`{:?}` in lib.rs line 90. -/
def rejectionCodeDebug : RejectionCode → String
  | .NoError => "NoError"
  | .SysFatal => "SysFatal"
  | .SysTransient => "SysTransient"
  | .DestinationInvalid => "DestinationInvalid"
  | .CanisterReject => "CanisterReject"
  | .CanisterError => "CanisterError"
  | .Unknown => "Unknown"

/-- Groups of at most three characters, taken from the front. -/
def chunksOf3 : List Char → List (List Char)
  | [] => []
  | [a] => [[a]]
  | [a, b] => [[a, b]]
  | a :: b :: c :: tl => [a, b, c] :: chunksOf3 tl

/-- candid's `pp_num_str`: digit groups of three, from the right, joined
with underscores.  `candid::Nat`'s `Display` (used by the `{}` for
`response.status` in lib.rs line 86) formats through this. -/
def ppNumStr (s : String) : String :=
  String.mk (List.intercalate ['_'] (((chunksOf3 s.data.reverse).map List.reverse).reverse))

/-- `format!("{}", status)` for a candid `Nat` status. -/
def natCandidStr (n : Nat) : String :=
  ppNumStr (toString n)

/-- Is the byte a UTF-8 continuation byte (0x80..=0xBF)? -/
def contByte (b : UInt8) : Bool :=
  decide (0x80 ≤ b.toNat ∧ b.toNat ≤ 0xBF)

/-- Lower bound of the valid second byte after lead byte `b0`
(UTF-8 shortest-form / surrogate-exclusion constraints, as in Rust's
`core::str` validation). -/
def secondLo (b0 : UInt8) : Nat :=
  if b0.toNat = 0xE0 then 0xA0 else if b0.toNat = 0xF0 then 0x90 else 0x80

/-- Upper bound of the valid second byte after lead byte `b0`. -/
def secondHi (b0 : UInt8) : Nat :=
  if b0.toNat = 0xED then 0x9F else if b0.toNat = 0xF4 then 0x8F else 0xBF

/-- Is `b1` a valid second byte after lead byte `b0`? -/
def validSecond (b0 b1 : UInt8) : Bool :=
  decide (secondLo b0 ≤ b1.toNat ∧ b1.toNat ≤ secondHi b0)

/-- U+FFFD REPLACEMENT CHARACTER. -/
def replacementChar : Char := Char.ofNat 0xFFFD

/-- One step of `String::from_utf8_lossy` on lead byte `b0` with remaining
bytes `tl`: the decoded character (or U+FFFD for a maximal invalid
subpart, following Rust's error-length rules) and the bytes left over. -/
def utf8Step (b0 : UInt8) (tl : List UInt8) : Char × List UInt8 :=
  if b0.toNat < 0x80 then
    (Char.ofNat b0.toNat, tl)
  else if 0xC2 ≤ b0.toNat ∧ b0.toNat ≤ 0xDF then
    match tl with
    | [] => (replacementChar, [])
    | b1 :: tl1 =>
      if validSecond b0 b1 then
        (Char.ofNat ((b0.toNat - 0xC0) * 64 + (b1.toNat - 0x80)), tl1)
      else
        (replacementChar, b1 :: tl1)
  else if 0xE0 ≤ b0.toNat ∧ b0.toNat ≤ 0xEF then
    match tl with
    | [] => (replacementChar, [])
    | b1 :: tl1 =>
      if validSecond b0 b1 then
        match tl1 with
        | [] => (replacementChar, [])
        | b2 :: tl2 =>
          if contByte b2 then
            (Char.ofNat ((b0.toNat - 0xE0) * 4096 + (b1.toNat - 0x80) * 64 + (b2.toNat - 0x80)),
              tl2)
          else
            (replacementChar, b2 :: tl2)
      else
        (replacementChar, b1 :: tl1)
  else if 0xF0 ≤ b0.toNat ∧ b0.toNat ≤ 0xF4 then
    match tl with
    | [] => (replacementChar, [])
    | b1 :: tl1 =>
      if validSecond b0 b1 then
        match tl1 with
        | [] => (replacementChar, [])
        | b2 :: tl2 =>
          if contByte b2 then
            match tl2 with
            | [] => (replacementChar, [])
            | b3 :: tl3 =>
              if contByte b3 then
                (Char.ofNat ((b0.toNat - 0xF0) * 262144 + (b1.toNat - 0x80) * 4096 +
                    (b2.toNat - 0x80) * 64 + (b3.toNat - 0x80)), tl3)
              else
                (replacementChar, b3 :: tl3)
          else
            (replacementChar, b2 :: tl2)
      else
        (replacementChar, b1 :: tl1)
  else
    (replacementChar, tl)

/-- Iterate `utf8Step` with explicit fuel; structural recursion on the
fuel keeps the function kernel-reducible.  Since each step consumes at
least one byte, fuel equal to the byte count is always enough. -/
def utf8LossyAux : Nat → List UInt8 → List Char
  | 0, _ => []
  | _ + 1, [] => []
  | fuel + 1, b0 :: tl => (utf8Step b0 tl).1 :: utf8LossyAux fuel (utf8Step b0 tl).2

/-- `String::from_utf8_lossy` (lib.rs line 85) on a byte list: decode
valid UTF-8 sequences, replace each maximal invalid subpart with one
U+FFFD. -/
def utf8LossyList (l : List UInt8) : List Char :=
  utf8LossyAux l.length l

/-- `String::from_utf8_lossy` as a `String`. -/
def utf8Lossy (l : List UInt8) : String :=
  String.mk (utf8LossyList l)

/-- The bound given to the outcall in lib.rs line 79: 5_000_000_000 cycles. -/
def httpCycles : Nat := 5000000000

/-- The fixed delivery URL of lib.rs line 71. -/
def deliveryUrl : String := "https://observatory-7kdhmtcbfq-oa.a.run.app/notifications/email"

/-- The `request_headers` vector of lib.rs lines 55-68: Content-Type,
Authorization (bearer token from the `NOTIFICATIONS_TOKEN` environment
variable, empty when unset, via `unwrap_or_default`), idempotency-key
(`"futura-"` ++ document key). -/
def request_headers (key : String) (env : Option String) : List HttpHeader :=
  [{ name := "Content-Type", value := "application/json" },
   { name := "Authorization", value := "Bearer " ++ env.getD "" },
   { name := "idempotency-key", value := "futura-" ++ key }]

/-- The `CanisterHttpRequestArgument` of lib.rs lines 70-77. -/
def buildRequest (json_body : String) (key : String) (env : Option String) :
    CanisterHttpRequestArgument :=
  { url := deliveryUrl,
    method := .POST,
    body := some json_body,
    max_response_bytes := some 1000,
    transform := none,
    headers := request_headers key env }

/-- The error string of lib.rs line 86 for a non-2xx response. -/
def remoteErrorMsg (status : Nat) (bodyText : String) : String :=
  "Email API returned status " ++ natCandidStr status ++ ": " ++ bodyText

/-- The error string of lib.rs line 90 for a transport-layer rejection. -/
def transportErrorMsg (r : RejectionCode) (m : String) : String :=
  "HTTP request failed. RejectionCode: " ++ rejectionCodeDebug r ++ ", Error: " ++ m

/-- The `Ok((response,))` arm of lib.rs lines 80-88: status in [200, 300)
is success (the body is not inspected); any other status yields the error
string carrying the status and the lossily decoded body. -/
def classifyResponse (response : HttpResponse) : Except String Unit :=
  if 200 ≤ response.status ∧ response.status < 300 then
    Except.ok ()
  else
    Except.error (remoteErrorMsg response.status (utf8Lossy response.body))

/-- The full `match` of lib.rs lines 79-92 on the outcall result. -/
def dispatchResult (outcome : Except (RejectionCode × String) HttpResponse) :
    Except String Unit :=
  match outcome with
  | .ok response => classifyResponse response
  | .error (r, m) => Except.error (transportErrorMsg r m)

/-- Decidable equality for `Except`, used to evaluate traces on concrete
inputs. -/
instance {e a : Type} [DecidableEq e] [DecidableEq a] : DecidableEq (Except e a) := fun x y =>
  match x, y with
  | .ok u, .ok v =>
    if h : u = v then isTrue (by rw [h]) else isFalse (by intro hh; cases hh; exact h rfl)
  | .error u, .error v =>
    if h : u = v then isTrue (by rw [h]) else isFalse (by intro hh; cases hh; exact h rfl)
  | .ok _, .error _ => isFalse (by intro hh; cases hh)
  | .error _, .ok _ => isFalse (by intro hh; cases hh)

/-- Outcome of one hook invocation: the returned `Result<(), String>` and
the list of HTTP outcalls that were issued (request and cycle budget), in
order. -/
structure DispatchTrace where
  result : Except String Unit
  calls : List (CanisterHttpRequestArgument × Nat)
deriving DecidableEq

/-- The outcall oracle: what the environment answers for each issued
request and cycle budget.  `Except.error` is a transport-layer rejection
`(RejectionCode, message)`; `Except.ok` is an `HttpResponse`. -/
def HttpOracle : Type :=
  CanisterHttpRequestArgument → Nat → Except (RejectionCode × String) HttpResponse

/-- The body of `on_set_doc` (lib.rs lines 37-93) after the decode step,
parameterized by the decode result: on decode failure the error propagates
via `?` and nothing else happens; otherwise the payload is built,
serialized (`?` again on the mapped error), the single outcall is issued
with a 5e9-cycle budget, and its outcome is classified.  The `println!` on
success is a log side effect and is not modelled. -/
def on_set_doc_core (decoded : Except String EmailRequest) (key : String)
    (env : Option String) (http : HttpOracle) : DispatchTrace :=
  match decoded with
  | .error e => { result := .error e, calls := [] }
  | .ok email_data =>
    match serde_json_to_string (buildEmailPayload email_data) with
    | .error e =>
      { result := .error ("Failed to serialize email payload: " ++ e), calls := [] }
    | .ok json_body =>
      let request := buildRequest json_body key env
      { result := dispatchResult (http request httpCycles),
        calls := [(request, httpCycles)] }

/-- Modelled from the spec: the inbound document payload as seen by
`decode_doc_data` (from the external junobuild_utils crate, whose code is
not under src/).  The spec says all six fields are required strings and
that decode fails if any is absent or mistyped; a missing or mistyped
field is represented by `none`. -/
structure RawDoc where
  «from» : Option String
  «to» : Option String
  subject : Option String
  text : Option String
  user_name : Option String
  recipient_name : Option String
deriving DecidableEq

/-- The names of the required fields that are missing from a raw payload. -/
def missingFields (d : RawDoc) : List String :=
  (if d.«from» = none then ["from"] else []) ++
  (if d.«to» = none then ["to"] else []) ++
  (if d.subject = none then ["subject"] else []) ++
  (if d.text = none then ["text"] else []) ++
  (if d.user_name = none then ["user_name"] else []) ++
  (if d.recipient_name = none then ["recipient_name"] else [])

/-- Modelled from the spec: `decode_doc_data::<EmailRequest>` (lib.rs line
38; the decoder itself lives in the external junobuild_utils crate).  It
yields an `EmailRequest` when every required field is present and fails
with a message naming the underlying cause otherwise. -/
def decode_doc_data (d : RawDoc) : Except String EmailRequest :=
  match d.«from», d.«to», d.subject, d.text, d.user_name, d.recipient_name with
  | some f, some t, some s, some x, some u, some r =>
    Except.ok { «from» := f, «to» := t, subject := s, text := x,
                user_name := u, recipient_name := r }
  | _, _, _, _, _, _ =>
    Except.error ("missing required field: " ++ String.intercalate ", " (missingFields d))

/-- The slice of `OnSetDocContext` the hook reads: `context.data.key` and
`context.data.data.after.data` (the raw payload of the written document). -/
structure SetDocContext where
  key : String
  after_data : RawDoc
deriving DecidableEq

/-- The whole hook `on_set_doc` (lib.rs lines 36-93): decode, then the
rest of the pipeline. -/
def on_set_doc (ctx : SetDocContext) (env : Option String) (http : HttpOracle) :
    DispatchTrace :=
  on_set_doc_core (decode_doc_data ctx.after_data) ctx.key env http

/-- Value of the first header with the given name, if any. -/
def findHeader (n : String) (hs : List HttpHeader) : Option String :=
  (hs.find? (fun h => h.name == n)).map (fun h => h.value)

/-- The message template exactly as the spec states it, the two
placeholders written in braces; compared against the source's `format!`
segments in the claim about the transform. -/
def specTemplate : String :=
  "Hello \x7brecipient_name\x7d,\n\n\x7buser_name\x7d has shared some files with you through Futura.\n\nYou can access your shared files at: https://futura.app\n\nBest regards,\nThe Futura Team"

/-- Helper: the head character of a string survives appending on the
right. -/
theorem string_head_append (s t : String) (c : Char)
    (h : s.data.head? = some c) : (s ++ t).data.head? = some c := by
  cases s with
  | mk l =>
    cases t with
    | mk m =>
      cases l with
      | nil => simp at h
      | cons a l' => simpa using h

/-- Helper: every transport-failure message starts with an H. -/
theorem transportErrorMsg_head (r : RejectionCode) (m : String) :
    (transportErrorMsg r m).data.head? = some 'H' := by
  unfold transportErrorMsg
  apply string_head_append
  apply string_head_append
  apply string_head_append
  rfl

/-- Helper: every remote-error message starts with an E. -/
theorem remoteErrorMsg_head (s : Nat) (b : String) :
    (remoteErrorMsg s b).data.head? = some 'E' := by
  unfold remoteErrorMsg
  apply string_head_append
  apply string_head_append
  apply string_head_append
  rfl

/-- Helper: a transport-failure message is never a remote-error message. -/
theorem transport_ne_remote (r : RejectionCode) (m : String) (s : Nat) (b : String) :
    transportErrorMsg r m ≠ remoteErrorMsg s b := by
  intro h
  have h1 := transportErrorMsg_head r m
  rw [h, remoteErrorMsg_head s b] at h1
  simp at h1

/-- Claim C1: for every successfully decoded request, the payload copies
`from`, `to`, `subject` verbatim and synthesizes `text` as the fixed
template with `recipient_name` and `user_name` substituted for the two
placeholders and every other byte unchanged; the transform is a total
function by construction. -/
theorem C1_transform (e : EmailRequest) :
    (buildEmailPayload e).«from» = e.«from» ∧
    (buildEmailPayload e).«to» = e.«to» ∧
    (buildEmailPayload e).subject = e.subject ∧
    (buildEmailPayload e).text =
      "Hello " ++ e.recipient_name ++ ",\n\n" ++ e.user_name ++
        " has shared some files with you through Futura.\n\nYou can access your shared files at: https://futura.app\n\nBest regards,\nThe Futura Team" ∧
    specTemplate =
      "Hello " ++ "\x7brecipient_name\x7d" ++ ",\n\n" ++ "\x7buser_name\x7d" ++
        " has shared some files with you through Futura.\n\nYou can access your shared files at: https://futura.app\n\nBest regards,\nThe Futura Team" :=
  ⟨rfl, rfl, rfl, rfl, rfl⟩

/-- Claim C2: a received response classifies as success iff its status is
in [200, 300) (the body is then not inspected, since the success branch is
independent of it); any other status yields the error carrying that status
and the lossily decoded body. -/
theorem C2_response_classification (response : HttpResponse) :
    (dispatchResult (Except.ok response) = Except.ok () ↔
      200 ≤ response.status ∧ response.status < 300) ∧
    (¬(200 ≤ response.status ∧ response.status < 300) →
      dispatchResult (Except.ok response) =
        Except.error (remoteErrorMsg response.status (utf8Lossy response.body))) := by
  have hd : dispatchResult (Except.ok response) = classifyResponse response := rfl
  rw [hd]
  unfold classifyResponse
  by_cases hc : 200 ≤ response.status ∧ response.status < 300
  · rw [if_pos hc]
    exact ⟨⟨fun _ => hc, fun _ => rfl⟩, fun hn => absurd hc hn⟩
  · rw [if_neg hc]
    exact ⟨⟨fun h => Except.noConfusion h, fun h => absurd h hc⟩, fun _ => rfl⟩

/-- Witness for C2 at status 404 with body "ov". -/
theorem C2_response_classification_witness :
    ¬(200 ≤ 404 ∧ 404 < 300) ∧
    dispatchResult (Except.ok ⟨404, [], [0x6f, 0x76]⟩) =
      Except.error (remoteErrorMsg 404 (utf8Lossy [0x6f, 0x76])) :=
  ⟨by decide, (C2_response_classification ⟨404, [], [0x6f, 0x76]⟩).2 (by decide)⟩

/-- Claim C3: on every invocation that reaches the outbound call, the
idempotency-key header of the issued request is exactly "futura-" followed
by the document key, whatever the key, the token and the rest of the
input. -/
theorem C3_idempotency_key (req : EmailRequest) (key : String)
    (env : Option String) (http : HttpOracle) :
    ((on_set_doc_core (Except.ok req) key env http).calls.map
      (fun c => findHeader "idempotency-key" c.1.headers)) =
      [some ("futura-" ++ key)] :=
  rfl

/-- Claim C4: an event payload missing any required field fails to decode,
the hook returns the decode error verbatim (so the message is exactly the
underlying cause), and no outbound call is issued; more generally any
decode failure short-circuits the hook with no outbound call. -/
theorem C4_decode_error (d : RawDoc) (key : String) (env : Option String)
    (http : HttpOracle) (h : missingFields d ≠ []) :
    (∃ e, decode_doc_data d = Except.error e ∧
      on_set_doc ⟨key, d⟩ env http = { result := Except.error e, calls := [] }) ∧
    ∀ e, on_set_doc_core (Except.error e) key env http =
      { result := Except.error e, calls := [] } := by
  refine ⟨?_, fun e => rfl⟩
  rcases d with ⟨f, t, s, x, u, r⟩
  cases f <;> cases t <;> cases s <;> cases x <;> cases u <;> cases r <;>
    first
      | exact absurd rfl h
      | exact ⟨_, rfl, rfl⟩

/-- Witness for C4: the payload missing `from` is rejected with no call. -/
theorem C4_decode_error_witness :
    missingFields ⟨none, some "b@x.com", some "S", some "t", some "u", some "r"⟩ ≠ [] ∧
    ((∃ e, decode_doc_data ⟨none, some "b@x.com", some "S", some "t", some "u", some "r"⟩ =
        Except.error e ∧
      on_set_doc ⟨"doc42", ⟨none, some "b@x.com", some "S", some "t", some "u", some "r"⟩⟩
          none (fun _ _ => Except.ok ⟨200, [], []⟩) =
        { result := Except.error e, calls := [] }) ∧
    ∀ e, on_set_doc_core (Except.error e) "doc42" none (fun _ _ => Except.ok ⟨200, [], []⟩) =
      { result := Except.error e, calls := [] }) :=
  ⟨by decide,
   C4_decode_error ⟨none, some "b@x.com", some "S", some "t", some "u", some "r"⟩
     "doc42" none (fun _ _ => Except.ok ⟨200, [], []⟩) (by decide)⟩

/-- Claim C5: when the transport layer rejects the outbound call, the hook
returns the transport error carrying the rejection code and message, and
no transport failure is ever reported as a remote (status) error, since
the two message families are disjoint. -/
theorem C5_transport_error (req : EmailRequest) (key : String)
    (env : Option String) (http : HttpOracle) (r : RejectionCode) (m : String)
    (h : ∀ a c, http a c = Except.error (r, m)) :
    (on_set_doc_core (Except.ok req) key env http).result =
      Except.error (transportErrorMsg r m) ∧
    ∀ s b, transportErrorMsg r m ≠ remoteErrorMsg s b := by
  constructor
  · have hr : (on_set_doc_core (Except.ok req) key env http).result =
        dispatchResult
          (http (buildRequest (serializeEmailPayload (buildEmailPayload req)) key env)
            httpCycles) := rfl
    rw [hr, h]
    rfl
  · exact fun s b => transport_ne_remote r m s b

/-- Witness for C5: a SysTransient rejection surfaces as a transport
error. -/
theorem C5_transport_error_witness :
    (on_set_doc_core
        (Except.ok ⟨"a@x.com", "b@x.com", "S", "ignored", "Alice", "Bob"⟩) "doc42" none
        (fun _ _ => Except.error (RejectionCode.SysTransient, "connection refused"))).result =
      Except.error (transportErrorMsg RejectionCode.SysTransient "connection refused") :=
  (C5_transport_error ⟨"a@x.com", "b@x.com", "S", "ignored", "Alice", "Bob"⟩ "doc42" none
    (fun _ _ => Except.error (RejectionCode.SysTransient, "connection refused"))
    RejectionCode.SysTransient "connection refused" (fun _ _ => rfl)).1

/-- Claim C6: the Authorization header of every issued request is exactly
"Bearer " followed by the token read from the environment, and when the
variable is unset the header value is exactly "Bearer ": the request is
still sent rather than the hook failing closed. -/
theorem C6_authorization_header (req : EmailRequest) (key : String)
    (env : Option String) (http : HttpOracle) :
    ((on_set_doc_core (Except.ok req) key env http).calls.map
      (fun c => findHeader "Authorization" c.1.headers)) =
      [some ("Bearer " ++ env.getD "")] ∧
    (env = none →
      ((on_set_doc_core (Except.ok req) key env http).calls.map
        (fun c => findHeader "Authorization" c.1.headers)) = [some "Bearer "]) := by
  constructor
  · rfl
  · intro h
    subst h
    rfl

/-- Witness for C6: with the token variable unset, the request goes out
with the bare "Bearer " header. -/
theorem C6_authorization_header_witness :
    ((on_set_doc_core
        (Except.ok ⟨"a@x.com", "b@x.com", "S", "ignored", "Alice", "Bob"⟩) "doc42" none
        (fun _ _ => Except.ok ⟨200, [], []⟩)).calls.map
      (fun c => findHeader "Authorization" c.1.headers)) = [some "Bearer "] :=
  (C6_authorization_header ⟨"a@x.com", "b@x.com", "S", "ignored", "Alice", "Bob"⟩
    "doc42" none (fun _ _ => Except.ok ⟨200, [], []⟩)).2 rfl

/-- Claim C7: every invocation that passes decode (and the serialization
that cannot fail) issues exactly one outbound call, a POST to the fixed
delivery URL with the application/json content type, the serialized
JSON object of the four payload fields as body, a 1000-byte response cap
and a 5e9-cycle budget. -/
theorem C7_outbound_request (req : EmailRequest) (key : String)
    (env : Option String) (http : HttpOracle) :
    (on_set_doc_core (Except.ok req) key env http).calls.length = 1 ∧
    ∀ c ∈ (on_set_doc_core (Except.ok req) key env http).calls,
      c.1.url = "https://observatory-7kdhmtcbfq-oa.a.run.app/notifications/email" ∧
      c.1.method = HttpMethod.POST ∧
      findHeader "Content-Type" c.1.headers = some "application/json" ∧
      c.1.body = some ("\x7b\"from\":" ++ jsonStringLit req.«from» ++
        ",\"to\":" ++ jsonStringLit req.«to» ++
        ",\"subject\":" ++ jsonStringLit req.subject ++
        ",\"text\":" ++ jsonStringLit (emailText req.recipient_name req.user_name) ++
        "\x7d") ∧
      c.1.max_response_bytes = some 1000 ∧
      c.2 = 5000000000 := by
  refine ⟨rfl, ?_⟩
  intro c hc
  have hcalls : (on_set_doc_core (Except.ok req) key env http).calls =
      [(buildRequest (serializeEmailPayload (buildEmailPayload req)) key env, httpCycles)] :=
    rfl
  rw [hcalls] at hc
  have hc' := List.mem_singleton.mp hc
  subst hc'
  exact ⟨rfl, rfl, rfl, rfl, rfl, rfl⟩

/-- Witness for C7: the scenario request issues one call whose URL and
method are checked concretely. -/
theorem C7_outbound_request_witness :
    ((buildRequest
        (serializeEmailPayload
          (buildEmailPayload ⟨"a@x.com", "b@x.com", "S", "ignored", "Alice", "Bob"⟩))
        "doc42" none, httpCycles) ∈
      (on_set_doc_core (Except.ok ⟨"a@x.com", "b@x.com", "S", "ignored", "Alice", "Bob"⟩)
        "doc42" none (fun _ _ => Except.ok ⟨202, [], []⟩)).calls) ∧
    (buildRequest
        (serializeEmailPayload
          (buildEmailPayload ⟨"a@x.com", "b@x.com", "S", "ignored", "Alice", "Bob"⟩))
        "doc42" none).url =
      "https://observatory-7kdhmtcbfq-oa.a.run.app/notifications/email" :=
  ⟨List.mem_singleton.mpr rfl,
   ((C7_outbound_request ⟨"a@x.com", "b@x.com", "S", "ignored", "Alice", "Bob"⟩ "doc42" none
      (fun _ _ => Except.ok ⟨202, [], []⟩)).2
     (buildRequest
       (serializeEmailPayload
         (buildEmailPayload ⟨"a@x.com", "b@x.com", "S", "ignored", "Alice", "Bob"⟩))
       "doc42" none, httpCycles)
     (List.mem_singleton.mpr rfl)).1⟩

/-- Claim C8: the outbound request and the whole invocation outcome are
independent of the input's `text` field: two decoded requests agreeing on
the other five fields produce identical traces for the same key, token and
environment. -/
theorem C8_text_noninterference (r1 r2 : EmailRequest) (key : String)
    (env : Option String) (http : HttpOracle)
    (h1 : r1.«from» = r2.«from») (h2 : r1.«to» = r2.«to»)
    (h3 : r1.subject = r2.subject) (h4 : r1.user_name = r2.user_name)
    (h5 : r1.recipient_name = r2.recipient_name) :
    on_set_doc_core (Except.ok r1) key env http =
      on_set_doc_core (Except.ok r2) key env http := by
  have hp : buildEmailPayload r1 = buildEmailPayload r2 := by
    rcases r1 with ⟨f1, t1, s1, x1, u1, p1⟩
    rcases r2 with ⟨f2, t2, s2, x2, u2, p2⟩
    simp only [buildEmailPayload] at *
    simp_all
  have hcore : ∀ r : EmailRequest, on_set_doc_core (Except.ok r) key env http =
      { result := dispatchResult
          (http (buildRequest (serializeEmailPayload (buildEmailPayload r)) key env)
            httpCycles),
        calls := [(buildRequest (serializeEmailPayload (buildEmailPayload r)) key env,
          httpCycles)] } :=
    fun r => rfl
  rw [hcore r1, hcore r2, hp]

/-- Witness for C8: two requests differing only in `text` give the same
trace. -/
theorem C8_text_noninterference_witness :
    on_set_doc_core (Except.ok ⟨"a@x.com", "b@x.com", "S", "one", "Alice", "Bob"⟩)
        "doc42" none (fun _ _ => Except.ok ⟨200, [], []⟩) =
      on_set_doc_core (Except.ok ⟨"a@x.com", "b@x.com", "S", "two", "Alice", "Bob"⟩)
        "doc42" none (fun _ _ => Except.ok ⟨200, [], []⟩) :=
  C8_text_noninterference ⟨"a@x.com", "b@x.com", "S", "one", "Alice", "Bob"⟩
    ⟨"a@x.com", "b@x.com", "S", "two", "Alice", "Bob"⟩ "doc42" none
    (fun _ _ => Except.ok ⟨200, [], []⟩) rfl rfl rfl rfl rfl

/-- Claim C9: serializing the payload of a successfully decoded request
always succeeds, so the serialization-error branch is unreachable and
every invocation that passes decode proceeds to the single outbound
call. -/
theorem C9_serialization_total (req : EmailRequest) (key : String)
    (env : Option String) (http : HttpOracle) :
    (∃ j, serde_json_to_string (buildEmailPayload req) = Except.ok j) ∧
    (on_set_doc_core (Except.ok req) key env http).calls.length = 1 :=
  ⟨⟨serializeEmailPayload (buildEmailPayload req), rfl⟩, rfl⟩

/-- Claim C10: response classification is total over arbitrary byte
bodies: every non-2xx response, even one whose body is not valid UTF-8,
classifies to the remote error built from the lossy UTF-8 decoding of the
body. -/
theorem C10_lossy_classification (s : Nat) (hdrs : List HttpHeader)
    (body : List UInt8) (h : ¬(200 ≤ s ∧ s < 300)) :
    classifyResponse ⟨s, hdrs, body⟩ =
      Except.error (remoteErrorMsg s (utf8Lossy body)) := by
  unfold classifyResponse
  rw [if_neg h]

/-- Witness for C10: status 500 with the invalid UTF-8 body [0xff, 0x61]
classifies to a remote error whose body text is the replacement character
followed by "a". -/
theorem C10_lossy_classification_witness :
    ¬(200 ≤ 500 ∧ 500 < 300) ∧
    classifyResponse ⟨500, [], [0xff, 0x61]⟩ =
      Except.error (remoteErrorMsg 500 (utf8Lossy [0xff, 0x61])) ∧
    utf8Lossy [0xff, 0x61] = "�" ++ "a" :=
  ⟨by decide, C10_lossy_classification 500 [] [0xff, 0x61] (by decide), by decide⟩
